import Mathlib

/-!
Verification of the robot-fleet workflow backend.

This file shallowly embeds the core of the repository — the workflow engine
(`app/workflow_engine/service.py`), the vendor task client
(`app/workflow_engine/vendor_task_client.py`) and the robot state poller
(`app/robot_monitor/poller.py`) — as executable Lean definitions, and proves
or refutes the behavioural claims made by the specification.

Side-effecting collaborators (the vendor HTTP API, the robot-state API, the
database session) are modelled as explicit oracles and explicit state
threading: each Python method that commits to the database becomes a pure
function from the old state to the new state, and each fallible HTTP call is
an `Except`-valued field of an environment record.
-/

namespace Backend

/-! ### String helpers mirroring the Python primitives used by the source -/

/-- Model of Python `str.strip()` restricted to ASCII whitespace (space, tab,
carriage return, newline), which is what the repository's inputs use. -/
def pyStrip (s : String) : String :=
  String.mk (((s.toList.dropWhile Char.isWhitespace).reverse.dropWhile Char.isWhitespace).reverse)

/-- Model of Python `str.upper()` via per-character ASCII upper-casing. -/
def pyUpper (s : String) : String :=
  String.mk (s.toList.map Char.toUpper)

/-- Model of Python `str.lower()` via per-character ASCII lower-casing. -/
def pyLower (s : String) : String :=
  String.mk (s.toList.map Char.toLower)

/-- Collapse every maximal run of whitespace into a single space.  The flag
records whether the previously emitted character position was inside a
whitespace run. -/
def collapseWsAux : Bool → List Char → List Char
  | _, [] => []
  | prevWs, c :: rest =>
    if c.isWhitespace then
      if prevWs then collapseWsAux true rest
      else ' ' :: collapseWsAux true rest
    else c :: collapseWsAux false rest

/-- `norm` from `_resolve_poi`: strip the ends, lower-case, collapse internal
whitespace runs to one space (the Python code applies the regex to the
already-stripped, lowered string). -/
def normName (s : String) : String :=
  String.mk (collapseWsAux false ((pyStrip (pyLower s)).toList))

/-- Boolean substring test on character lists (model of Python `in` on str). -/
def listInfix (needle : List Char) : List Char → Bool
  | [] => needle.isEmpty
  | c :: rest => needle.isPrefixOf (c :: rest) || listInfix needle rest

/-- Python `needle in hay` for strings. -/
def strContains (hay needle : String) : Bool :=
  listInfix needle.toList hay.toList

/-- First maximal run of decimal digits of `s`, the model of
Python `re.search(r"(\d+)", s)`. -/
def firstDigitRun (s : String) : Option String :=
  let tail := s.toList.dropWhile (fun c => !c.isDigit)
  if tail.isEmpty then none
  else some (String.mk (tail.takeWhile Char.isDigit))

/-! ### Vendor task client (`vendor_task_client.py`)

The HTTP transport is modelled as a list of scripted responses consumed one
per request; the MD5-signed token cache is modelled by an optional token
value plus a count of token fetches (a fresh token is fetched whenever no
cached token is present, mirroring `get_token` inside its TTL window). -/

/-- One HTTP response from the vendor: transport status code, application
level `status` field of the JSON body, and the `data.actType` field. -/
structure VResp where
  code : Nat
  app : Option Int := none
  actType : Option Int := none
deriving DecidableEq

/-- Token-cache state of the `AutoXingClient`: cached token (if any) and how
many times a token has been fetched from `/auth/v1.1/token`. -/
structure TokState where
  token : Option Nat := none
  fetches : Nat := 0
deriving DecidableEq

/-- `_headers()` → `get_token()`: reuse the cached token, otherwise fetch a
fresh one (the fresh token is numbered by the fetch counter). -/
def getHeaders (ts : TokState) : TokState × Nat :=
  match ts.token with
  | some t => (ts, t)
  | none => ({ token := some ts.fetches, fetches := ts.fetches + 1 }, ts.fetches)

/-- Result of one `task_state_v2` poll: final token-cache state, number of
HTTP requests issued against the task-state endpoint, and either a raised
error or the JSON payload returned to the caller. -/
structure PollResult where
  ts : TokState
  calls : Nat
  result : Except String VResp

/-- Second half of `task_state_v2` after the transport-level 401/403 retry has
been resolved: `raise_for_status`, then the application-level 401/403 check
with one retry, then return the payload as-is (note: no raise on other
non-200 application statuses). -/
def taskStateApp (ts : TokState) (r : VResp) (rsLeft : List VResp) (calls : Nat) : PollResult :=
  if r.code ≥ 400 then ⟨ts, calls, .error "HTTPStatusError"⟩
  else if r.app = some 401 ∨ r.app = some 403 then
    let ts2 : TokState := { ts with token := none }
    let (ts3, _) := getHeaders ts2
    match rsLeft with
    | [] => ⟨ts3, calls, .error "transport failure"⟩
    | r2 :: _ =>
      if r2.code ≥ 400 then ⟨ts3, calls + 1, .error "HTTPStatusError"⟩
      else ⟨ts3, calls + 1, .ok r2⟩
  else ⟨ts, calls, .ok r⟩

/-- `task_state_v2(task_id)`: GET with the cached token; on transport 401/403
clear the token, re-fetch, retry once; `raise_for_status`; on application
`status` 401/403 clear the token, re-fetch, retry once; return the payload. -/
def taskStateV2 (ts : TokState) (responses : List VResp) : PollResult :=
  let (ts1, _) := getHeaders ts
  match responses with
  | [] => ⟨ts1, 0, .error "transport failure"⟩
  | r1 :: rs1 =>
    if r1.code = 401 ∨ r1.code = 403 then
      let ts2 : TokState := { ts1 with token := none }
      let (ts3, _) := getHeaders ts2
      match rs1 with
      | [] => ⟨ts3, 1, .error "transport failure"⟩
      | r2 :: rs2 => taskStateApp ts3 r2 rs2 2
    else taskStateApp ts1 r1 rs1 1

/-! ### POI resolver (`_resolve_poi` in `service.py`)

The database mapping row and the two live-POI listings (current area only,
and all areas) are inputs; the vendor payload fields not consulted by the
resolver are omitted from the POI record. -/

/-- Transient POI from the Robot API, restricted to the fields the resolver
reads. -/
structure POI where
  id : String
  name : Option String := none
deriving DecidableEq

/-- Name-based fallback tiers of `_resolve_poi` (direct-id match followed by
the per-kind name patterns), operating on the all-areas POI list exactly as
the source does after the mapping tier falls through. -/
def resolveFallback (pois : List POI) (kind ref : String) : Option POI :=
  match pois.find? (fun p => p.id == ref) with
  | some p => some p
  | none =>
    if kind = "TABLE" then
      match firstDigitRun ref with
      | none => none
      | some num =>
        match pois.find? (fun p =>
            let n := normName (p.name.getD "")
            (strContains n "table" || strContains n "tbl") && strContains n num) with
        | some p => some p
        | none => pois.find? (fun p => strContains (normName (p.name.getD "")) num)
    else if kind = "KITCHEN" then
      pois.find? (fun p => strContains (normName (p.name.getD "")) "kitchen")
    else if kind = "OPERATOR" then
      pois.find? (fun p => strContains (normName (p.name.getD "")) "operator")
    else if kind = "WASHING" then
      match pois.find? (fun p =>
          let n := normName (p.name.getD "")
          strContains n "wash" || strContains n "dish" || strContains n "sink") with
      | some p => some p
      | none => pois.find? (fun p => strContains (normName (p.name.getD "")) "kitchen")
    else if kind = "CHARGING" then
      pois.find? (fun p =>
        let n := normName (p.name.getD "")
        strContains n "charg" || strContains n "dock" || strContains n "pile")
    else
      let refN := normName ref
      pois.find? (fun p => !refN.isEmpty && strContains (normName (p.name.getD "")) refN)

/-- `_resolve_poi(robot_id, target_kind, target_ref)`.  `mappingGet` is the
`poi_id` of the `(kind, ref)` row of the PoiMapping store (if any);
`poisCurrent` is the live POI listing restricted to the robot's current area
and `poisAll` the unrestricted listing. -/
def resolvePoi (mappingGet : Option String) (poisCurrent poisAll : List POI)
    (target_kind target_ref : String) : Option POI :=
  let kind := pyUpper (pyStrip target_kind)
  let ref := pyStrip target_ref
  match mappingGet with
  | some pid =>
    match poisCurrent.find? (fun p => p.id == pid) with
    | some p => some p
    | none =>
      match poisAll.find? (fun p => p.id == pid) with
      | some p => some p
      | none => resolveFallback poisAll kind ref
  | none => resolveFallback poisAll kind ref

/-- Mapping tier of the resolver in isolation (used to phrase "the
explicit-mapping tier yields no POI"). -/
def mappingTier (mappingGet : Option String) (poisCurrent poisAll : List POI) : Option POI :=
  mappingGet.bind fun pid =>
    match poisCurrent.find? (fun p => p.id == pid) with
    | some p => some p
    | none => poisAll.find? (fun p => p.id == pid)

/-- Modelled from the spec's words (§4.1, TABLE fallback): "extract the first
run of digits from ref; prefer a POI whose normalized name contains "table"
or "tbl" and that digit sequence; else any POI whose name contains that digit
sequence", returning null when ref has no digits or nothing matches. -/
def tableFallbackSpec (pois : List POI) (ref : String) : Option POI :=
  match firstDigitRun ref with
  | none => none
  | some num =>
    match pois.find? (fun p =>
        let n := normName (p.name.getD "")
        (strContains n "table" || strContains n "tbl") && strContains n num) with
    | some p => some p
    | none => pois.find? (fun p => strContains (normName (p.name.getD "")) num)

/-! ### Robot state poller (`robot_monitor/poller.py`)

The fetched state is a JSON value; `_stable_hash` is `json.dumps` with sorted
keys and minimal separators.  The per-robot loop body is `pollIter`; a full
poll history is a list of fetch outcomes folded through it. -/

/-- JSON value as fetched from the Robot API (numbers restricted to the
integers, which is all the change-detection argument needs). -/
inductive JVal where
  | null : JVal
  | bool (b : Bool) : JVal
  | num (n : Int) : JVal
  | str (s : String) : JVal
  | arr (xs : List JVal) : JVal
  | obj (fields : List (String × JVal)) : JVal

/-- JSON string escaping for the serializer (quote and backslash; the control
characters the vendor payloads do not contain are left as-is). -/
def jEscape (s : String) : String :=
  String.mk (s.toList.foldr (fun c acc =>
    if c = '"' then '\\' :: '"' :: acc
    else if c = '\\' then '\\' :: '\\' :: acc
    else c :: acc) [])

/-- Insert a rendered key/value pair into a key-sorted list (model of
`sort_keys=True`). -/
def insertByKey (x : String × String) : List (String × String) → List (String × String)
  | [] => [x]
  | y :: ys => if x.1 ≤ y.1 then x :: y :: ys else y :: insertByKey x ys

/-- Sort rendered key/value pairs by key. -/
def sortByKey (l : List (String × String)) : List (String × String) :=
  l.foldr insertByKey []

/-- Comma-join already-rendered fragments (minimal separators). -/
def commaJoin : List String → String
  | [] => ""
  | [x] => x
  | x :: y :: rest => x ++ "," ++ commaJoin (y :: rest)

/-- `json.dumps(d, sort_keys=True, ensure_ascii=False, separators=(",", ":"))`:
canonical key-sorted minimal-whitespace rendering. -/
def dumps : JVal → String
  | .null => "null"
  | .bool true => "true"
  | .bool false => "false"
  | .num n => toString n
  | .str s => "\"" ++ jEscape s ++ "\""
  | .arr xs => "[" ++ commaJoin (xs.attach.map (fun x => dumps x.1)) ++ "]"
  | .obj fields =>
    let rendered := fields.attach.map (fun f => (f.1.1, dumps f.1.2))
    "\x7b" ++ commaJoin ((sortByKey rendered).map (fun kv => "\"" ++ jEscape kv.1 ++ "\":" ++ kv.2)) ++ "\x7d"
decreasing_by
  · have := List.sizeOf_lt_of_mem x.2
    simp only [JVal.arr.sizeOf_spec]
    omega
  · have h1 := List.sizeOf_lt_of_mem f.2
    have h2 : sizeOf f.1.2 < sizeOf f.1 := by
      obtain ⟨a, b⟩ := f.1
      simp only [Prod.mk.sizeOf_spec]
      omega
    simp only [JVal.obj.sizeOf_spec]
    omega

/-- `_stable_hash(d)`: the canonical serialization used for change
detection. -/
def stableHash (v : JVal) : String := dumps v

/-- Event published by the poller for one robot. -/
inductive PollEvent where
  | state_updated (state : JVal) : PollEvent
  | state_error (msg : String) : PollEvent

/-- One iteration of the poller's per-robot body: on a fetch error publish
`robot.state_error`; otherwise hash the state and publish
`robot.state_updated` exactly when the hash differs from the remembered one
(first element of the result is the new `_last_hash` entry). -/
def pollIter (last : Option String) (fetch : Except String JVal) : Option String × List PollEvent :=
  match fetch with
  | .error e => (last, [.state_error e])
  | .ok st =>
    let h := stableHash st
    if last ≠ some h then (some h, [.state_updated st])
    else (last, [])

/-- Fold a history of fetch outcomes for one robot through the poller body,
collecting every published event in order. -/
def pollRun (last : Option String) : List (Except String JVal) → Option String × List PollEvent
  | [] => (last, [])
  | f :: fs =>
    let (l1, es) := pollIter last f
    let (l2, rest) := pollRun l1 fs
    (l2, es ++ rest)

/-- Canonical hashes of the states carried by the `robot.state_updated`
events of an event list, in publication order. -/
def updatedHashes (events : List PollEvent) : List String :=
  events.filterMap fun e =>
    match e with
    | .state_updated st => some (stableHash st)
    | .state_error _ => none

/-! ### Workflow engine (`workflow_engine/service.py`)

A single task / single run scenario is modelled (the per-robot exclusivity
check over the run store is kept in `startRun`).  Each Python method that
commits becomes a pure state transformer; DB commits between fallible calls
are reflected by returning the partially-updated state alongside the raised
error, exactly as the rows would stand after the exception. Time is seconds
since the epoch (`utc_now` becomes the environment's `now`). -/

/-- `TaskStatus` of `persistence/models.py` (names as in the source). -/
inductive TaskStatus where
  | PENDING | READY | ASSIGNED | IN_PROGRESS | DONE | CANCELED | FAILED
deriving DecidableEq, BEq

/-- `WorkflowRunStatus`. -/
inductive RunStatus where
  | RUNNING | DONE | FAILED | CANCELED
deriving DecidableEq, BEq

/-- `WorkflowStepType`. -/
inductive StepType where
  | NAVIGATE | MANUAL_CONFIRM
deriving DecidableEq, BEq

/-- The Task fields the workflow engine reads or writes. -/
structure Task where
  status : TaskStatus
  release_at : Option Int := none
  assigned_robot_id : Option String := none
deriving DecidableEq

/-- The WorkflowRun fields the engine reads or writes. -/
structure WorkflowRun where
  status : RunStatus
  current_step_index : Nat
  total_steps : Nat
  current_vendor_task_id : Option String := none
  last_error : Option String := none
deriving DecidableEq

/-- The WorkflowStep fields the engine reads or writes.  `decision_payload`
models the JSON payload through its only consulted key: the `minutes` value
(absent when the payload has no `minutes` key). -/
structure WorkflowStep where
  step_index : Nat
  step_type : StepType
  step_code : String
  decision : Option String := none
  decision_payload : Option Int := none
  completed_at : Option Int := none
deriving DecidableEq

/-- Database state of one task, its current run and the run's steps. -/
structure EngineState where
  task : Task
  run : WorkflowRun
  steps : List WorkflowStep
deriving DecidableEq

/-- Environment of one engine call: feature flags, clock, and the outcomes
the external services would produce (`create_result` is the `taskId` of a
successful `task_create_v3`, `robot_state` the `isOnline` field of a robot
state fetch, `task_state` the `data.actType` of a vendor poll). -/
structure Env where
  safe_mode : Bool := false
  auto_reassign : Bool := false
  now : Int := 0
  create_result : Except String (Option String) := .ok (some "v-1")
  robot_state : Except String (Option Bool) := .ok (some true)
  task_state : String → Except String (Option Int) := fun _ => .ok none

/-- Observable vendor side effects of one engine call. -/
structure Trace where
  creates : Nat := 0
  cancels : List String := []
deriving DecidableEq

/-- Result of an engine call that either returns normally or raises, with the
database state as committed at that point. -/
structure OpResult where
  state : EngineState
  err : Option String := none
  tr : Trace := {}

/-- Result of `_progress_one_run`: committed state, either the
`(changed, done)` pair or the raised error, plus the vendor side effects. -/
structure ProgResult where
  state : EngineState
  outcome : Except String (Bool × Bool)
  tr : Trace := {}

/-- Result of `tick()` for the run: committed state and the three counters. -/
structure TickResult where
  state : EngineState
  progressed : Nat := 0
  finished : Nat := 0
  failed : Nat := 0
  tr : Trace := {}

/-- Look up the step row whose `step_index` equals `idx`. -/
def findStep (steps : List WorkflowStep) (idx : Nat) : Option WorkflowStep :=
  steps.find? (fun s => s.step_index == idx)

/-- `_ensure_step_started(run)`: no-op past the end or on a MANUAL_CONFIRM
step; on a NAVIGATE step raise under SAFE_MODE, otherwise create the vendor
task and store the returned id on the run. -/
def ensureStepStarted (env : Env) (st : EngineState) : OpResult :=
  if st.run.current_step_index ≥ st.run.total_steps then ⟨st, none, {}⟩
  else
    match findStep st.steps st.run.current_step_index with
    | none => ⟨st, some "Workflow step not found", {}⟩
    | some step =>
      match step.step_type with
      | .MANUAL_CONFIRM => ⟨st, none, {}⟩
      | .NAVIGATE =>
        if env.safe_mode then
          ⟨st, some "SAFE_MODE=1 blocks vendor task creation. Set SAFE_MODE=0 to allow.", {}⟩
        else
          match env.create_result with
          | .error e => ⟨st, some e, { creates := 1 }⟩
          | .ok none => ⟨st, some "Vendor task create returned no taskId", { creates := 1 }⟩
          | .ok (some tid) =>
            ⟨{ st with run := { st.run with current_vendor_task_id := some tid } },
              none, { creates := 1 }⟩

/-- `_finish_run(run, success)`: mark the task DONE on success and the run
DONE (FAILED otherwise). -/
def finishRun (st : EngineState) (success : Bool) : EngineState :=
  let task' := if success then { st.task with status := TaskStatus.DONE } else st.task
  { st with
    task := task'
    run := { st.run with status := if success then RunStatus.DONE else RunStatus.FAILED } }

/-- `_apply_manual_decision(run, step)` with the decision already recorded on
`step`; every branch mirrors the source's decision-application table. -/
def applyManualDecision (env : Env) (st : EngineState) (step : WorkflowStep) : OpResult :=
  let decision := pyUpper (step.decision.getD "")
  if step.step_code = "ORDER_DECISION" then
    if decision = "POSTPONE" then
      let minutes := step.decision_payload.getD 10
      ⟨{ st with
          task := { st.task with
            release_at := some (env.now + minutes * 60), status := TaskStatus.PENDING }
          run := { st.run with status := RunStatus.CANCELED } }, none, {}⟩
    else if decision = "COMPLETED" then
      let idx' := st.run.current_step_index + 1
      ⟨{ st with
          task := { st.task with status := TaskStatus.DONE }
          run := { st.run with
            current_step_index := idx'
            status := if idx' ≥ st.run.total_steps then RunStatus.DONE else st.run.status } },
        none, {}⟩
    else ⟨st, some "ORDER_DECISION expects decision=POSTPONE or COMPLETED", {}⟩
  else if step.step_code = "CLEANUP_HAS_DISHES" then
    if decision = "NO" then
      ⟨{ st with
          task := { st.task with status := TaskStatus.DONE }
          run := { st.run with
            status := RunStatus.DONE, current_step_index := st.run.total_steps } }, none, {}⟩
    else if decision = "YES" then
      let st1 := { st with run := { st.run with current_step_index := st.run.current_step_index + 1 } }
      ensureStepStarted env st1
    else ⟨st, some "CLEANUP_HAS_DISHES expects decision=YES or NO", {}⟩
  else if step.step_code = "CLEANUP_MORE_DISHES" then
    if decision = "YES" then
      let st1 := { st with run := { st.run with current_step_index := 0, current_vendor_task_id := none } }
      ensureStepStarted env st1
    else if decision = "NO" then
      ⟨{ st with
          task := { st.task with status := TaskStatus.DONE }
          run := { st.run with
            status := RunStatus.DONE, current_step_index := st.run.total_steps } }, none, {}⟩
    else ⟨st, some "CLEANUP_MORE_DISHES expects decision=YES or NO", {}⟩
  else if step.step_code.startsWith "DELIVERY_" ∨ step.step_code.startsWith "BILLING_" then
    let idx' := st.run.current_step_index + 1
    let st1 := { st with run := { st.run with current_step_index := idx', current_vendor_task_id := none } }
    if idx' ≥ st.run.total_steps then
      ⟨{ st1 with
          task := { st1.task with status := TaskStatus.DONE }
          run := { st1.run with status := RunStatus.DONE } }, none, {}⟩
    else ensureStepStarted env st1
  else
    let st1 := { st with run := { st.run with
      current_step_index := st.run.current_step_index + 1, current_vendor_task_id := none } }
    ensureStepStarted env st1

/-- `confirm_current_step(run_id, decision, payload)`: guard the run status
and the step type, record the stripped upper-cased decision and the payload
on the step row, then apply the decision. -/
def confirmCurrentStep (env : Env) (st : EngineState) (decision : String)
    (payload : Option Int) : OpResult :=
  if st.run.status ≠ RunStatus.RUNNING then
    ⟨st, some "Run is not RUNNING, cannot confirm step.", {}⟩
  else
    match findStep st.steps st.run.current_step_index with
    | none => ⟨st, some "Current step not found", {}⟩
    | some step =>
      if step.step_type ≠ StepType.MANUAL_CONFIRM then
        ⟨st, some "Current step is not MANUAL_CONFIRM", {}⟩
      else
        let step' := { step with
          completed_at := some env.now
          decision := some (pyUpper (pyStrip decision))
          decision_payload := payload }
        let st1 := { st with
          steps := st.steps.map (fun s => if s.step_index == step'.step_index then step' else s) }
        applyManualDecision env st1 step'

/-- `_handle_offline_reassign(run)` once the fetched state's `isOnline` is
explicitly `false`: best-effort vendor cancel, requeue a non-terminal task,
fail the run. -/
def offlineReassign (st : EngineState) : ProgResult :=
  let tr : Trace := { cancels := match st.run.current_vendor_task_id with
    | some tid => [tid]
    | none => [] }
  let task' :=
    if st.task.status ≠ TaskStatus.DONE ∧ st.task.status ≠ TaskStatus.CANCELED then
      { st.task with status := TaskStatus.READY, assigned_robot_id := none }
    else st.task
  ⟨{ st with
      task := task'
      run := { st.run with status := RunStatus.FAILED, last_error := some "robot offline -> requeued" } },
    .ok (true, true), tr⟩

/-- `_progress_one_run` without the offline-reassign prologue. -/
def progressCore (env : Env) (st : EngineState) : ProgResult :=
  if st.run.current_step_index ≥ st.run.total_steps then
    ⟨finishRun st true, .ok (true, true), {}⟩
  else
    match findStep st.steps st.run.current_step_index with
    | none => ⟨st, .error "Workflow step not found", {}⟩
    | some step =>
      if step.step_type = StepType.MANUAL_CONFIRM then ⟨st, .ok (false, false), {}⟩
      else
        match st.run.current_vendor_task_id with
        | none =>
          let r := ensureStepStarted env st
          match r.err with
          | some e => ⟨r.state, .error e, r.tr⟩
          | none => ⟨r.state, .ok (true, false), r.tr⟩
        | some tid =>
          match env.task_state tid with
          | .error e => ⟨st, .error e, {}⟩
          | .ok act =>
            if act = some 1001 then
              let st1 := { st with run := { st.run with
                current_step_index := st.run.current_step_index + 1
                current_vendor_task_id := none } }
              if st1.run.current_step_index ≥ st1.run.total_steps then
                ⟨finishRun st1 true, .ok (true, true), {}⟩
              else
                let r := ensureStepStarted env st1
                match r.err with
                | some e => ⟨r.state, .error e, r.tr⟩
                | none => ⟨r.state, .ok (true, false), r.tr⟩
            else ⟨st, .ok (false, false), {}⟩

/-- `_progress_one_run(run)`: optional offline-reassign prologue (skipped
when the robot-state fetch raises), then the per-step state machine. -/
def progressOneRun (env : Env) (st : EngineState) : ProgResult :=
  if env.auto_reassign then
    match env.robot_state with
    | .error _ => progressCore env st
    | .ok online =>
      if online = some false then offlineReassign st
      else progressCore env st
  else progressCore env st

/-- `tick()` restricted to the modelled run: skip it unless RUNNING, progress
it, and on a raised error mark it FAILED with `last_error` set (the exception
handler of the per-run loop). -/
def tick (env : Env) (st : EngineState) : TickResult :=
  if st.run.status ≠ RunStatus.RUNNING then ⟨st, 0, 0, 0, {}⟩
  else
    let r := progressOneRun env st
    match r.outcome with
    | .ok (changed, done) =>
      ⟨r.state, if changed then 1 else 0, if done then 1 else 0, 0, r.tr⟩
    | .error e =>
      ⟨{ r.state with run := { r.state.run with status := RunStatus.FAILED, last_error := some e } },
        0, 0, 1, r.tr⟩

/-- Result of `start_run`: the stored run rows after the call, the engine
state of the new run when one was persisted, the raised error (if any) and
the vendor side effects. -/
structure StartResult where
  runs : List WorkflowRun
  state : Option EngineState := none
  err : Option String := none
  tr : Trace := {}

/-- `start_run(task_id, robot_id)`: guard the task status and the per-robot
exclusivity over `priorRuns`, plan (`plan` is the planner outcome), persist
the RUNNING run at step 0 together with its re-indexed steps, then invoke
`_ensure_step_started` — whose failure is raised to the caller after the run
row was already committed. -/
def startRun (env : Env) (task : Task) (plan : Except String (List WorkflowStep))
    (priorRuns : List WorkflowRun) : StartResult :=
  if task.status = TaskStatus.CANCELED ∨ task.status = TaskStatus.DONE then
    ⟨priorRuns, none, some "Task status is terminal; cannot start workflow.", {}⟩
  else if priorRuns.any (fun r => r.status == RunStatus.RUNNING) then
    ⟨priorRuns, none, some "Robot already has a RUNNING workflow.", {}⟩
  else
    match plan with
    | .error e => ⟨priorRuns, none, some e, {}⟩
    | .ok steps =>
      let run0 : WorkflowRun :=
        { status := RunStatus.RUNNING
          current_step_index := 0
          total_steps := steps.length
          current_vendor_task_id := none
          last_error := none }
      let steps' := steps.enum.map (fun is => { is.2 with step_index := is.1 })
      let st0 : EngineState := ⟨task, run0, steps'⟩
      let r := ensureStepStarted env st0
      ⟨priorRuns ++ [r.state.run], some r.state, r.err, r.tr⟩

/-- WorkflowRun states reachable through `start_run`, `tick` and `confirm`
(both outcomes of `start_run` leave a committed row, so both are reachable
roots). -/
inductive Reachable : EngineState → Prop where
  | start (env : Env) (task : Task) (plan : Except String (List WorkflowStep))
      (priorRuns : List WorkflowRun) (st : EngineState) :
      (startRun env task plan priorRuns).state = some st → Reachable st
  | tickStep (env : Env) {st : EngineState} :
      Reachable st → Reachable (tick env st).state
  | confirmStep (env : Env) (decision : String) (payload : Option Int) {st : EngineState} :
      Reachable st → Reachable (confirmCurrentStep env st decision payload).state

/-! ### Concrete scenarios used by witnesses and counterexamples -/

/-- The four steps the planner emits for a CLEANUP task (navigation details
elided to the step types and codes the runner consults). -/
def cleanupSteps : List WorkflowStep :=
  [ ⟨0, .NAVIGATE, "NAVIGATE", none, none, none⟩,
    ⟨1, .MANUAL_CONFIRM, "CLEANUP_HAS_DISHES", none, none, none⟩,
    ⟨2, .NAVIGATE, "NAVIGATE", none, none, none⟩,
    ⟨3, .MANUAL_CONFIRM, "CLEANUP_MORE_DISHES", none, none, none⟩ ]

/-- The single step of a NAVIGATE task. -/
def navSteps : List WorkflowStep :=
  [ ⟨0, .NAVIGATE, "NAVIGATE", none, none, none⟩ ]

/-- The two steps of an ORDERING task. -/
def orderingSteps : List WorkflowStep :=
  [ ⟨0, .NAVIGATE, "NAVIGATE", none, none, none⟩,
    ⟨1, .MANUAL_CONFIRM, "ORDER_DECISION", none, none, none⟩ ]

/-- Cooperative environment: vendor task creation yields id `v-1`, every poll
reports `actType = 1001`, the robot is online. -/
def envHappy : Env :=
  { create_result := .ok (some "v-1"), task_state := fun _ => .ok (some 1001) }

/-- Environment whose vendor state poll raises a transport error. -/
def envPollErr : Env :=
  { create_result := .ok (some "v-1"), task_state := fun _ => .error "transport error" }

/-- Environment with SAFE_MODE enabled. -/
def envSafe : Env := { envHappy with safe_mode := true }

/-- A READY task. -/
def taskR : Task := { status := TaskStatus.READY }

/-- CLEANUP run state as persisted by a successful `start_run` (step 0
dispatched as vendor task `v-1`). -/
def cleanupS0 : EngineState :=
  { task := taskR
    run := { status := .RUNNING, current_step_index := 0, total_steps := 4,
             current_vendor_task_id := some "v-1" }
    steps := cleanupSteps }

/-- NAVIGATE run state as persisted by a successful `start_run`. -/
def navS0 : EngineState :=
  { task := taskR
    run := { status := .RUNNING, current_step_index := 0, total_steps := 1,
             current_vendor_task_id := some "v-1" }
    steps := navSteps }

/-- ORDERING run waiting at its ORDER_DECISION step. -/
def orderingS1 : EngineState :=
  { task := taskR
    run := { status := .RUNNING, current_step_index := 1, total_steps := 2 }
    steps := orderingSteps }

/-! ### The vendor-task-id invariant (claim C1) -/

/-- Inductive invariant: whenever a vendor task id is recorded on the run,
the run is not DONE and not CANCELED, its step cursor is inside the step
list, and the current step is a NAVIGATE step. -/
def VendorInv (st : EngineState) : Prop :=
  ∀ tid, st.run.current_vendor_task_id = some tid →
    st.run.status ≠ RunStatus.DONE ∧ st.run.status ≠ RunStatus.CANCELED ∧
    st.run.current_step_index < st.run.total_steps ∧
    ∃ s, findStep st.steps st.run.current_step_index = some s ∧
      s.step_type = StepType.NAVIGATE

theorem vendorInv_of_none {st : EngineState}
    (h : st.run.current_vendor_task_id = none) : VendorInv st := by
  intro tid htid
  rw [h] at htid
  cases htid

/-- `_ensure_step_started` either leaves the state untouched or records a
vendor task id on a NAVIGATE step strictly inside the step list. -/
theorem ensureStepStarted_state_cases (env : Env) (st : EngineState) :
    (ensureStepStarted env st).state = st ∨
    (st.run.current_step_index < st.run.total_steps ∧
      (∃ s, findStep st.steps st.run.current_step_index = some s ∧
        s.step_type = StepType.NAVIGATE) ∧
      ∃ tid, (ensureStepStarted env st).state =
        { st with run := { st.run with current_vendor_task_id := some tid } }) := by
  unfold ensureStepStarted
  split
  · left; rfl
  · rename_i hlt
    split
    · left; rfl
    · rename_i step hstep
      split
      · left; rfl
      · rename_i hnav
        split
        · left; rfl
        · split
          · left; rfl
          · left; rfl
          · right
            refine ⟨by omega, ?_, ?_⟩
            · exact Exists.intro step (And.intro hstep hnav)
            · exact ⟨_, rfl⟩

/-- When `_ensure_step_started` raises, no state was committed. -/
theorem ensureStepStarted_err_state (env : Env) (st : EngineState) :
    (ensureStepStarted env st).err.isSome → (ensureStepStarted env st).state = st := by
  unfold ensureStepStarted
  split
  · simp
  · split
    · simp
    · split
      · simp
      · split
        · simp
        · split
          · simp
          · simp
          · simp

theorem ensureStepStarted_inv (env : Env) (st : EngineState)
    (hrun : st.run.status = RunStatus.RUNNING) (hinv : VendorInv st) :
    VendorInv (ensureStepStarted env st).state := by
  rcases ensureStepStarted_state_cases env st with h | ⟨hlt, ⟨s, hs, hnav⟩, tid, h⟩
  · rw [h]; exact hinv
  · rw [h]
    intro tid' htid'
    refine ⟨(by rw [hrun]; intro hc; cases hc), (by rw [hrun]; intro hc; cases hc), hlt, s, hs, hnav⟩

theorem applyManualDecision_inv (env : Env) (st : EngineState) (step : WorkflowStep)
    (hrun : st.run.status = RunStatus.RUNNING)
    (hv : st.run.current_vendor_task_id = none) :
    VendorInv (applyManualDecision env st step).state := by
  unfold applyManualDecision
  dsimp only
  split
  · split
    · exact vendorInv_of_none hv
    · split
      · exact vendorInv_of_none hv
      · exact vendorInv_of_none hv
  · split
    · split
      · exact vendorInv_of_none hv
      · split
        · exact ensureStepStarted_inv env _ hrun (vendorInv_of_none hv)
        · exact vendorInv_of_none hv
    · split
      · split
        · exact ensureStepStarted_inv env _ hrun (vendorInv_of_none rfl)
        · split
          · exact vendorInv_of_none hv
          · exact vendorInv_of_none hv
      · split
        · split
          · exact vendorInv_of_none rfl
          · exact ensureStepStarted_inv env _ hrun (vendorInv_of_none rfl)
        · exact ensureStepStarted_inv env _ hrun (vendorInv_of_none rfl)

theorem confirmCurrentStep_inv (env : Env) (st : EngineState) (decision : String)
    (payload : Option Int) (hinv : VendorInv st) :
    VendorInv (confirmCurrentStep env st decision payload).state := by
  unfold confirmCurrentStep
  split
  · exact hinv
  · rename_i hrun'
    have hrun := not_not.mp hrun'
    split
    · exact hinv
    · rename_i step hstep
      split
      · exact hinv
      · rename_i hman'
        have hman := not_not.mp hman'
        have hv : st.run.current_vendor_task_id = none := by
          cases hcv : st.run.current_vendor_task_id with
          | none => rfl
          | some tid =>
            obtain ⟨-, -, -, s, hs, hnav⟩ := hinv tid hcv
            rw [hstep] at hs
            cases hs
            rw [hman] at hnav
            cases hnav
        exact applyManualDecision_inv env _ _ hrun hv

theorem progressCore_inv (env : Env) (st : EngineState)
    (hrun : st.run.status = RunStatus.RUNNING) (hinv : VendorInv st) :
    VendorInv (progressCore env st).state := by
  unfold progressCore
  dsimp only
  split
  · rename_i hge
    intro tid htid
    exfalso
    have htid' : st.run.current_vendor_task_id = some tid := by
      simpa [finishRun] using htid
    obtain ⟨-, -, hlt, -⟩ := hinv tid htid'
    omega
  · split
    · exact hinv
    · rename_i step hstep
      split
      · exact hinv
      · split
        · split
          · exact ensureStepStarted_inv env st hrun hinv
          · exact ensureStepStarted_inv env st hrun hinv
        · split
          · exact hinv
          · split
            · split
              · intro tid' htid'
                simp [finishRun] at htid'
              · split
                · exact ensureStepStarted_inv env _ hrun (vendorInv_of_none rfl)
                · exact ensureStepStarted_inv env _ hrun (vendorInv_of_none rfl)
            · exact hinv

theorem progressOneRun_inv (env : Env) (st : EngineState)
    (hrun : st.run.status = RunStatus.RUNNING) (hinv : VendorInv st) :
    VendorInv (progressOneRun env st).state := by
  unfold progressOneRun
  split
  · split
    · exact progressCore_inv env st hrun hinv
    · split
      · intro tid htid
        have htid' : st.run.current_vendor_task_id = some tid := htid
        obtain ⟨-, -, hlt, hs⟩ := hinv tid htid'
        refine ⟨(by simp [offlineReassign]), (by simp [offlineReassign]), hlt, hs⟩
      · exact progressCore_inv env st hrun hinv
  · exact progressCore_inv env st hrun hinv

theorem tick_inv (env : Env) (st : EngineState) (hinv : VendorInv st) :
    VendorInv (tick env st).state := by
  unfold tick
  dsimp only
  split
  · exact hinv
  · rename_i hrun'
    have hrun := not_not.mp hrun'
    split
    · exact progressOneRun_inv env st hrun hinv
    · intro tid htid
      have htid' : (progressOneRun env st).state.run.current_vendor_task_id = some tid := htid
      obtain ⟨-, -, hlt, hs⟩ := progressOneRun_inv env st hrun hinv tid htid'
      exact ⟨(by intro hc; cases hc), (by intro hc; cases hc), hlt, hs⟩

theorem startRun_inv (env : Env) (task : Task) (plan : Except String (List WorkflowStep))
    (priorRuns : List WorkflowRun) (st' : EngineState)
    (h : (startRun env task plan priorRuns).state = some st') : VendorInv st' := by
  unfold startRun at h
  split at h
  · simp at h
  · split at h
    · simp at h
    · split at h
      · simp at h
      · simp only [Option.some.injEq] at h
        subst h
        exact ensureStepStarted_inv env _ rfl (vendorInv_of_none rfl)

theorem reachable_vendorInv {st : EngineState} (h : Reachable st) : VendorInv st := by
  induction h with
  | start env task plan priorRuns st' hst => exact startRun_inv env task plan priorRuns st' hst
  | tickStep env _ ih => exact tick_inv env _ ih
  | confirmStep env decision payload _ ih => exact confirmCurrentStep_inv env _ decision payload ih

/-! ### Idempotence of the decision normalization -/

theorem char_toNat_ofNat_valid (n : Nat) (h : n < 55296) : (Char.ofNat n).toNat = n := by
  unfold Char.ofNat
  rw [dif_pos (Or.inl h)]
  rfl

theorem char_toUpper_idem (c : Char) : c.toUpper.toUpper = c.toUpper := by
  unfold Char.toUpper
  dsimp only
  by_cases h : c.toNat ≥ 97 ∧ c.toNat ≤ 122
  · rw [if_pos h]
    have hv : (Char.ofNat (c.toNat - 32)).toNat = c.toNat - 32 :=
      char_toNat_ofNat_valid _ (by omega)
    rw [if_neg (by rw [hv]; omega)]
  · rw [if_neg h, if_neg h]

theorem pyUpper_idem (s : String) : pyUpper (pyUpper s) = pyUpper s := by
  unfold pyUpper
  simp [String.toList, List.map_map, Function.comp_def, char_toUpper_idem]

/-! ### Poller lemmas (claim C9) -/

theorem pollRun_cons (last : Option String) (f : Except String JVal)
    (fs : List (Except String JVal)) :
    pollRun last (f :: fs) =
      ((pollRun (pollIter last f).1 fs).1,
        (pollIter last f).2 ++ (pollRun (pollIter last f).1 fs).2) := rfl

theorem updatedHashes_append (a b : List PollEvent) :
    updatedHashes (a ++ b) = updatedHashes a ++ updatedHashes b :=
  List.filterMap_append a b _

theorem pollRun_hash_chain (fs : List (Except String JVal)) : ∀ last : Option String,
    List.Chain' Ne (updatedHashes (pollRun last fs).2) ∧
    ∀ h : String, last = some h →
      ∀ x ∈ (updatedHashes (pollRun last fs).2).head?, x ≠ h := by
  induction fs with
  | nil =>
    intro last
    constructor
    · simp [pollRun, updatedHashes]
    · intro h hlast x hx
      simp [pollRun, updatedHashes] at hx
  | cons f fs ih =>
    intro last
    rw [pollRun_cons]
    cases f with
    | error e =>
      have h1 : pollIter last (.error e) = (last, [.state_error e]) := rfl
      rw [h1]
      dsimp only
      rw [updatedHashes_append]
      constructor
      · simpa [updatedHashes] using (ih last).1
      · intro h hlast x hx
        refine (ih last).2 h hlast x ?_
        simpa [updatedHashes] using hx
    | ok stv =>
      by_cases hcase : last = some (stableHash stv)
      · have h1 : pollIter last (.ok stv) = (last, []) := by
          simp [pollIter, hcase]
        rw [h1]
        dsimp only
        rw [updatedHashes_append]
        constructor
        · simpa [updatedHashes] using (ih last).1
        · intro h hlast x hx
          refine (ih last).2 h hlast x ?_
          simpa [updatedHashes] using hx
      · have h1 : pollIter last (.ok stv) = (some (stableHash stv), [.state_updated stv]) := by
          simp [pollIter, hcase]
        rw [h1]
        dsimp only
        rw [updatedHashes_append]
        have ihs := ih (some (stableHash stv))
        have hcons : updatedHashes [PollEvent.state_updated stv] = [stableHash stv] := rfl
        rw [hcons]
        constructor
        · rw [List.singleton_append, List.chain'_cons']
          exact ⟨fun y hy => (ihs.2 (stableHash stv) rfl y hy).symm, ihs.1⟩
        · intro h hlast x hx
          rw [List.singleton_append] at hx
          simp only [List.head?_cons, Option.mem_def, Option.some.injEq] at hx
          subst hx
          intro hxh
          exact hcase (by rw [hlast, hxh])

/-! ### Claim theorems -/

/-- C1 counterexample: the claim is false for FAILED.  Start a NAVIGATE run
(vendor task `v-1` outstanding), then tick while the vendor poll raises: the
per-run exception handler marks the run FAILED but leaves
`current_vendor_task_id = "v-1"`, and this state is reachable through
`start_run` and `tick`. -/
theorem tick_exception_keeps_vendor_task_id :
    Reachable (tick envPollErr navS0).state ∧
    (tick envPollErr navS0).state.run.status = RunStatus.FAILED ∧
    (tick envPollErr navS0).state.run.current_vendor_task_id = some "v-1" := by
  refine ⟨?_, by decide, by decide⟩
  exact Reachable.tickStep envPollErr
    (Reachable.start envHappy taskR (.ok navSteps) [] navS0 (by decide))

/-- C1 (amended): for every reachable state, if the run is DONE or CANCELED
then `current_vendor_task_id` is null; the FAILED-setting paths (per-run
exception handler in tick, offline reassign) do not clear the field. -/
theorem reachable_terminal_vendor_task_null (st : EngineState) (h : Reachable st)
    (hterm : st.run.status = RunStatus.DONE ∨ st.run.status = RunStatus.CANCELED) :
    st.run.current_vendor_task_id = none := by
  cases hcv : st.run.current_vendor_task_id with
  | none => rfl
  | some tid =>
    obtain ⟨hd, hc, -, -⟩ := reachable_vendorInv h tid hcv
    rcases hterm with h1 | h1
    · exact absurd h1 hd
    · exact absurd h1 hc

/-- NAVIGATE run driven to completion by one cooperative tick. -/
def navDone : EngineState := (tick envHappy navS0).state

/-- Witness for the amended C1 at a concrete reachable DONE state. -/
theorem reachable_terminal_vendor_task_null_witness :
    (navDone.run.status = RunStatus.DONE ∨ navDone.run.status = RunStatus.CANCELED) ∧
    navDone.run.current_vendor_task_id = none := by
  refine ⟨Or.inl (by decide), ?_⟩
  exact reachable_terminal_vendor_task_null navDone
    (Reachable.tickStep envHappy
      (Reachable.start envHappy taskR (.ok navSteps) [] navS0 (by decide)))
    (Or.inl (by decide))

/-- C2 counterexample: with SAFE_MODE enabled, `start_run` of a NAVIGATE task
raises, yet the stored run set is no longer the pre-call one — a run row was
persisted before `_ensure_step_started` ran. -/
theorem startRun_safe_mode_persists_run_cex :
    (startRun envSafe taskR (.ok navSteps) []).err.isSome = true ∧
    (startRun envSafe taskR (.ok navSteps) []).runs ≠ ([] : List WorkflowRun) := by
  decide

/-- C2 (amended): when `_ensure_step_started` fails during `start_run`, the
caller sees the error, but the stored runs equal the prior ones plus one new
RUNNING run at step 0 with a null vendor task id. -/
theorem startRun_ensure_failure_persists_run (env : Env) (task : Task)
    (steps : List WorkflowStep) (priorRuns : List WorkflowRun)
    (hT : ¬(task.status = TaskStatus.CANCELED ∨ task.status = TaskStatus.DONE))
    (hB : priorRuns.any (fun r => r.status == RunStatus.RUNNING) = false)
    (hE : (ensureStepStarted env
        ⟨task, ⟨RunStatus.RUNNING, 0, steps.length, none, none⟩,
          steps.enum.map (fun is => { is.2 with step_index := is.1 })⟩).err.isSome) :
    (startRun env task (.ok steps) priorRuns).err.isSome = true ∧
    (startRun env task (.ok steps) priorRuns).runs =
      priorRuns ++ [⟨RunStatus.RUNNING, 0, steps.length, none, none⟩] := by
  unfold startRun
  rw [if_neg hT]
  rw [if_neg (by rw [hB]; exact Bool.false_ne_true)]
  dsimp only
  constructor
  · exact hE
  · rw [ensureStepStarted_err_state env _ hE]

/-- Witness for the amended C2: SAFE_MODE blocks the NAVIGATE dispatch and
the failed call still persists the run row. -/
theorem startRun_ensure_failure_persists_run_witness :
    (startRun envSafe taskR (.ok navSteps) []).err.isSome = true ∧
    (startRun envSafe taskR (.ok navSteps) []).runs =
      [] ++ [⟨RunStatus.RUNNING, 0, navSteps.length, none, none⟩] :=
  startRun_ensure_failure_persists_run envSafe taskR navSteps []
    (by decide) (by decide) (by decide)

/-- C3 counterexample: a task-state poll answered with transport 200 and
application status 500 is returned to the runner as a payload — the client
does not raise. -/
theorem taskStateV2_returns_non200_cex :
    (taskStateV2 { token := some 0, fetches := 1 } [⟨200, some 500, none⟩]).result
      = .ok ⟨200, some 500, none⟩ := rfl

/-- C3 (amended): `task_state_v2` raises on transport errors and retries once
on 401/403, but any other application-level status — 200 or not — is returned
to the Workflow Runner as the payload without raising. -/
theorem taskStateV2_returns_payload (ts : TokState) (r : VResp)
    (hcode : r.code < 400) (happ : ¬(r.app = some 401 ∨ r.app = some 403)) :
    (taskStateV2 ts [r]).result = .ok r := by
  unfold taskStateV2 taskStateApp
  dsimp only
  rw [if_neg (by omega : ¬(r.code = 401 ∨ r.code = 403))]
  rw [if_neg (by omega : ¬r.code ≥ 400)]
  rw [if_neg happ]

/-- Witness for the amended C3 at application status 502. -/
theorem taskStateV2_returns_payload_witness :
    (taskStateV2 { token := some 0, fetches := 1 } [⟨200, some 502, none⟩]).result
      = .ok ⟨200, some 502, none⟩ :=
  taskStateV2_returns_payload _ _ (by decide) (by decide)

/-- C8: a first response carrying transport 401/403, or transport success
with application status 401/403, makes the client clear the cached token,
fetch a fresh one (exactly one extra fetch) and retry exactly once; with a
clean second response the poll makes exactly two HTTP calls and returns the
second payload. -/
theorem vendor_auth_retry (t n : Nat) (r1 r2 : VResp)
    (htrig : r1.code = 401 ∨ r1.code = 403 ∨
      (r1.code < 400 ∧ (r1.app = some 401 ∨ r1.app = some 403)))
    (h2c : r2.code < 400) (h2a : ¬(r2.app = some 401 ∨ r2.app = some 403)) :
    (taskStateV2 { token := some t, fetches := n } [r1, r2]).ts
        = { token := some n, fetches := n + 1 } ∧
    (taskStateV2 { token := some t, fetches := n } [r1, r2]).calls = 2 ∧
    (taskStateV2 { token := some t, fetches := n } [r1, r2]).result = .ok r2 := by
  unfold taskStateV2 taskStateApp getHeaders
  dsimp only
  rcases htrig with h | h | ⟨ha, hb⟩
  · rw [if_pos (Or.inl h)]
    rw [if_neg (by omega : ¬r2.code ≥ 400), if_neg h2a]
    exact ⟨rfl, rfl, rfl⟩
  · rw [if_pos (Or.inr h)]
    rw [if_neg (by omega : ¬r2.code ≥ 400), if_neg h2a]
    exact ⟨rfl, rfl, rfl⟩
  · rw [if_neg (by omega : ¬(r1.code = 401 ∨ r1.code = 403))]
    rw [if_neg (by omega : ¬r1.code ≥ 400)]
    rw [if_pos hb]
    rw [if_neg (by omega : ¬r2.code ≥ 400)]
    exact ⟨rfl, rfl, rfl⟩

/-- Witness for C8: the token-refresh scenario — first poll answers
application status 401, the retry succeeds with `actType = 1001`. -/
theorem vendor_auth_retry_witness :
    (taskStateV2 { token := some 9, fetches := 4 }
        [⟨200, some 401, none⟩, ⟨200, some 200, some 1001⟩]).ts
      = { token := some 4, fetches := 5 } ∧
    (taskStateV2 { token := some 9, fetches := 4 }
        [⟨200, some 401, none⟩, ⟨200, some 200, some 1001⟩]).calls = 2 ∧
    (taskStateV2 { token := some 9, fetches := 4 }
        [⟨200, some 401, none⟩, ⟨200, some 200, some 1001⟩]).result
      = .ok ⟨200, some 200, some 1001⟩ :=
  vendor_auth_retry 9 4 ⟨200, some 401, none⟩ ⟨200, some 200, some 1001⟩
    (Or.inr (Or.inr ⟨by decide, Or.inl rfl⟩)) (by decide) (by decide)

/-! ### The CLEANUP loop scenario (claim C4) -/

/-- CLEANUP scenario, state after tick 1 (NAVIGATE 0 completed). -/
def cleanupS1 : EngineState := (tick envHappy cleanupS0).state

/-- After HAS_DISHES = YES. -/
def cleanupS2 : EngineState := (confirmCurrentStep envHappy cleanupS1 "YES" none).state

/-- After tick 2 (NAVIGATE 2 completed). -/
def cleanupS3 : EngineState := (tick envHappy cleanupS2).state

/-- After MORE_DISHES = YES (the loop reset). -/
def cleanupS4 : EngineState := (confirmCurrentStep envHappy cleanupS3 "YES" none).state

/-- After tick 3. -/
def cleanupS5 : EngineState := (tick envHappy cleanupS4).state

/-- After the second HAS_DISHES = YES. -/
def cleanupS6 : EngineState := (confirmCurrentStep envHappy cleanupS5 "YES" none).state

/-- After tick 4. -/
def cleanupS7 : EngineState := (tick envHappy cleanupS6).state

/-- After MORE_DISHES = NO. -/
def cleanupS8 : EngineState := (confirmCurrentStep envHappy cleanupS7 "NO" none).state

/-- C4: confirming CLEANUP_MORE_DISHES with YES resets the step cursor to 0
and re-dispatches step 0 (one vendor create; the vendor id on the run is the
newly created task); the confirmation sequence YES, YES, YES, NO with the
vendor completing each NAVIGATE in between makes `current_step_index`
traverse 0,1,2,3,0,1,2,3 (ending at total = 4) with run and task DONE. -/
theorem cleanup_loop_traverses_and_completes :
    ((confirmCurrentStep envHappy cleanupS3 "YES" none).state.run.current_step_index = 0 ∧
      (confirmCurrentStep envHappy cleanupS3 "YES" none).tr.creates = 1 ∧
      (confirmCurrentStep envHappy cleanupS3 "YES" none).state.run.current_vendor_task_id
        = some "v-1") ∧
    [cleanupS0, cleanupS1, cleanupS2, cleanupS3, cleanupS4,
      cleanupS5, cleanupS6, cleanupS7, cleanupS8].map
        (fun s => s.run.current_step_index) = [0, 1, 2, 3, 0, 1, 2, 3, 4] ∧
    cleanupS8.run.status = RunStatus.DONE ∧
    cleanupS8.task.status = TaskStatus.DONE := by
  decide

/-- C5: on an ORDER_DECISION step, POSTPONE sets `task.release_at` to now
plus the payload's minutes (default 10), the task to PENDING and the run to
CANCELED; any decision other than POSTPONE/COMPLETED is rejected. -/
theorem order_decision_postpone (env : Env) (st : EngineState) (step : WorkflowStep)
    (payload : Option Int)
    (hrun : st.run.status = RunStatus.RUNNING)
    (hstep : findStep st.steps st.run.current_step_index = some step)
    (hman : step.step_type = StepType.MANUAL_CONFIRM)
    (hcode : step.step_code = "ORDER_DECISION") :
    ((confirmCurrentStep env st "POSTPONE" payload).state.task.release_at
        = some (env.now + payload.getD 10 * 60) ∧
      (confirmCurrentStep env st "POSTPONE" payload).state.task.status = TaskStatus.PENDING ∧
      (confirmCurrentStep env st "POSTPONE" payload).state.run.status = RunStatus.CANCELED) ∧
    ∀ d : String, pyUpper (pyStrip d) ≠ "POSTPONE" → pyUpper (pyStrip d) ≠ "COMPLETED" →
      (confirmCurrentStep env st d payload).err
        = some "ORDER_DECISION expects decision=POSTPONE or COMPLETED" := by
  have hP : pyUpper (pyStrip "POSTPONE") = "POSTPONE" := by decide
  have hP2 : pyUpper "POSTPONE" = "POSTPONE" := by decide
  constructor
  · simp [confirmCurrentStep, hrun, hstep, hman, hP, applyManualDecision, hcode, hP2]
  · intro d hd1 hd2
    have hidem : pyUpper (pyUpper (pyStrip d)) = pyUpper (pyStrip d) := pyUpper_idem _
    simp [confirmCurrentStep, hrun, hstep, hman, applyManualDecision, hcode, hidem, hd1, hd2]

/-- Witness for C5 at an ORDERING run paused on its ORDER_DECISION step with
`minutes = 5` in the payload. -/
theorem order_decision_postpone_witness :
    (confirmCurrentStep envHappy orderingS1 "POSTPONE" (some 5)).state.task.release_at
        = some 300 ∧
    (confirmCurrentStep envHappy orderingS1 "POSTPONE" (some 5)).state.task.status
        = TaskStatus.PENDING ∧
    (confirmCurrentStep envHappy orderingS1 "POSTPONE" (some 5)).state.run.status
        = RunStatus.CANCELED ∧
    (confirmCurrentStep envHappy orderingS1 "MAYBE" (some 5)).err
        = some "ORDER_DECISION expects decision=POSTPONE or COMPLETED" := by
  obtain ⟨⟨h1, h2, h3⟩, h4⟩ := order_decision_postpone envHappy orderingS1
    ⟨1, .MANUAL_CONFIRM, "ORDER_DECISION", none, none, none⟩ (some 5)
    (by decide) (by decide) (by decide) (by decide)
  exact ⟨by simpa [envHappy] using h1, h2, h3, h4 "MAYBE" (by decide) (by decide)⟩

/-- C6: with the auto-reassign flag on, a robot-state fetch answering
`isOnline = false` makes tick cancel any outstanding vendor task
(best-effort), requeue a non-terminal task (READY, unassigned) and fail the
run with the fixed offline message; a raising state fetch skips the reassign
and the run is progressed exactly as with the flag off. -/
theorem offline_reassign_behaviour (env : Env) (st : EngineState)
    (hrun : st.run.status = RunStatus.RUNNING) (hflag : env.auto_reassign = true) :
    (env.robot_state = .ok (some false) →
      (tick env st).state.run.status = RunStatus.FAILED ∧
      (tick env st).state.run.last_error = some "robot offline -> requeued" ∧
      (tick env st).tr.cancels = (match st.run.current_vendor_task_id with
        | some tid => [tid]
        | none => []) ∧
      (st.task.status ≠ TaskStatus.DONE ∧ st.task.status ≠ TaskStatus.CANCELED →
        (tick env st).state.task.status = TaskStatus.READY ∧
        (tick env st).state.task.assigned_robot_id = none)) ∧
    (∀ e : String, env.robot_state = .error e →
      tick env st = tick { env with auto_reassign := false } st) := by
  have h1 : ¬(st.run.status ≠ RunStatus.RUNNING) := not_not_intro hrun
  constructor
  · intro hoff
    have hred : tick env st =
        ⟨(offlineReassign st).state, 1, 1, 0, (offlineReassign st).tr⟩ := by
      unfold tick progressOneRun
      rw [if_neg h1, hflag]
      dsimp only
      rw [hoff]
      dsimp only
      rfl
    rw [hred]
    refine ⟨by simp [offlineReassign], by simp [offlineReassign], ?_, ?_⟩
    · cases hcv : st.run.current_vendor_task_id <;> simp [offlineReassign, hcv]
    · intro htask
      constructor <;> simp [offlineReassign, if_pos htask]
  · intro e herr
    have hL : progressOneRun env st = progressCore env st := by
      unfold progressOneRun
      rw [hflag, if_pos rfl, herr]
    have hR : progressOneRun { env with auto_reassign := false } st = progressCore env st := rfl
    unfold tick
    rw [hL, hR]

/-- Witness for C6 at a concrete mid-run CLEANUP state (vendor task `v-1`
outstanding, robot offline) plus the fetch-error part at the same state. -/
theorem offline_reassign_behaviour_witness :
    (({ envHappy with auto_reassign := true, robot_state := .ok (some false) } : Env).robot_state
        = .ok (some false) →
      (tick { envHappy with auto_reassign := true, robot_state := .ok (some false) } cleanupS0).state.run.status
        = RunStatus.FAILED ∧
      (tick { envHappy with auto_reassign := true, robot_state := .ok (some false) } cleanupS0).state.run.last_error
        = some "robot offline -> requeued" ∧
      (tick { envHappy with auto_reassign := true, robot_state := .ok (some false) } cleanupS0).tr.cancels
        = (match cleanupS0.run.current_vendor_task_id with
          | some tid => [tid]
          | none => []) ∧
      (cleanupS0.task.status ≠ TaskStatus.DONE ∧ cleanupS0.task.status ≠ TaskStatus.CANCELED →
        (tick { envHappy with auto_reassign := true, robot_state := .ok (some false) } cleanupS0).state.task.status
          = TaskStatus.READY ∧
        (tick { envHappy with auto_reassign := true, robot_state := .ok (some false) } cleanupS0).state.task.assigned_robot_id
          = none)) ∧
    (∀ e : String,
      ({ envHappy with auto_reassign := true, robot_state := .ok (some false) } : Env).robot_state
          = .error e →
      tick { envHappy with auto_reassign := true, robot_state := .ok (some false) } cleanupS0
        = tick { { envHappy with auto_reassign := true, robot_state := .ok (some false) } with
            auto_reassign := false } cleanupS0) :=
  offline_reassign_behaviour
    { envHappy with auto_reassign := true, robot_state := .ok (some false) }
    cleanupS0 (by decide) rfl

/-- C7: for kind TABLE, once the mapping tier and the direct-id tier yield no
POI, `_resolve_poi` coincides with the spec's TABLE fallback: null when the
ref has no digits, otherwise the first POI whose normalized name contains
"table" or "tbl" together with the first digit run of the ref, else the
first POI whose normalized name contains that digit run, else null. -/
theorem resolveFallback_table (all : List POI) (r : String)
    (hdirect : all.find? (fun p => p.id == r) = none) :
    resolveFallback all "TABLE" r = tableFallbackSpec all r := by
  unfold resolveFallback
  rw [hdirect]
  dsimp only
  rw [if_pos rfl]
  unfold tableFallbackSpec
  rfl

theorem resolve_table_fallback_spec (mg : Option String) (cur all : List POI)
    (refS : String)
    (hm : mappingTier mg cur all = none)
    (hdirect : all.find? (fun p => p.id == pyStrip refS) = none) :
    resolvePoi mg cur all "TABLE" refS = tableFallbackSpec all (pyStrip refS) := by
  have hk : pyUpper (pyStrip "TABLE") = "TABLE" := by decide
  unfold resolvePoi
  dsimp only
  rw [hk]
  cases mg with
  | none =>
    dsimp only
    exact resolveFallback_table all (pyStrip refS) hdirect
  | some pid =>
    dsimp only
    replace hm : (match cur.find? (fun p => p.id == pid) with
      | some p => some p
      | none => all.find? (fun p => p.id == pid)) = none := hm
    cases hcur : cur.find? (fun p => p.id == pid) with
    | some p =>
      rw [hcur] at hm
      simp at hm
    | none =>
      rw [hcur] at hm
      replace hm : all.find? (fun p => p.id == pid) = none := hm
      dsimp only
      rw [hm]
      dsimp only
      exact resolveFallback_table all (pyStrip refS) hdirect

/-- Live POIs used by the resolver witness. -/
def tablePois : List POI :=
  [⟨"p1", some "Kitchen"⟩, ⟨"p2", some "  TABLE 5 "⟩, ⟨"p3", some "Bar 5"⟩]

/-- Witness for C7: with no mapping row and no direct-id match, "Table 5"
resolves through the TABLE fallback to the POI named "  TABLE 5 ". -/
theorem resolve_table_fallback_spec_witness :
    resolvePoi none [] tablePois "TABLE" "Table 5"
        = tableFallbackSpec tablePois (pyStrip "Table 5") ∧
    tableFallbackSpec tablePois (pyStrip "Table 5") = some ⟨"p2", some "  TABLE 5 "⟩ :=
  ⟨resolve_table_fallback_spec none [] tablePois "Table 5" rfl (by decide), by decide⟩

/-- C9: in every poll history the canonical hashes carried by consecutive
`robot.state_updated` events strictly change, and a fetch whose canonical
hash equals the remembered one publishes nothing. -/
theorem poller_updates_only_on_hash_change :
    (∀ fs : List (Except String JVal),
        List.Chain' Ne (updatedHashes (pollRun none fs).2)) ∧
    (∀ (last : Option String) (stv : JVal), last = some (stableHash stv) →
        pollIter last (.ok stv) = (last, [])) := by
  constructor
  · intro fs
    exact (pollRun_hash_chain fs none).1
  · intro last stv hlast
    simp [pollIter, hlast]

/-- A concrete robot-state snapshot. -/
def sampleState : JVal := .obj [("isOnline", .bool true), ("battery", .num 77)]

/-- Witness for C9: an unchanged snapshot publishes no event. -/
theorem poller_updates_only_on_hash_change_witness :
    pollIter (some (stableHash sampleState)) (.ok sampleState)
      = (some (stableHash sampleState), []) :=
  poller_updates_only_on_hash_change.2 (some (stableHash sampleState)) sampleState rfl

/-- C10: `confirm` records the decision stripped and upper-cased, so two
decision strings with the same normalization have exactly the same effect on
the whole engine state, error and trace. -/
theorem confirm_decision_normalized (env : Env) (st : EngineState) (payload : Option Int)
    (d d' : String) (h : pyUpper (pyStrip d) = pyUpper (pyStrip d')) :
    confirmCurrentStep env st d payload = confirmCurrentStep env st d' payload := by
  unfold confirmCurrentStep
  simp only [h]

/-- Witness for C10: confirming with " yes " equals confirming with "YES" at
the CLEANUP_HAS_DISHES step. -/
theorem confirm_decision_normalized_witness :
    confirmCurrentStep envHappy cleanupS1 " yes " none
      = confirmCurrentStep envHappy cleanupS1 "YES" none :=
  confirm_decision_normalized envHappy cleanupS1 none " yes " "YES" (by decide)

end Backend
